import Mathlib

/-!
Verification of the calculation domain model of a calculator web backend.

The embedded code:
- `app/operations/__init__.py`: two-operand primitives `add`, `subtract`,
  `multiply`, `divide` (the last rejects a zero second operand).
- `app/models/calculation.py`: the polymorphic `Calculation` entity with a
  factory `create` keyed on a lowercased type tag, and per-variant
  `get_result` methods (addition via `sum`, subtraction/division via an
  imperative left fold, multiplication via a fold from 1, division with a
  per-divisor zero check inside the loop).
- `app/schemas/calculation.py`: the request-validation schemas
  `CalculationBase` (type-tag legality, list-shape, minimum operand count,
  and a division-specific zero-divisor gate) and `CalculationUpdate`
  (optional inputs, minimum operand count only).

Numbers (Python `int`/`float` operands, JSON numbers) are modelled as exact
rationals `ℚ`; errors raised with `raise ValueError(...)` are modelled as an
explicit error type carried in `Except`.
-/

deriving instance DecidableEq for Except

/-- Python's `str.lower()`, character by character (the tags at play are
ASCII, where `Char.toLower` agrees with Python). -/
def strLower (s : String) : String := ⟨s.data.map Char.toLower⟩

/-- A Python value passed as the `inputs` argument: either a proper list of
numbers, or some non-list value (e.g. a bare number), which the
`isinstance(self.inputs, list)` checks in the source reject. -/
inductive PyObj where
  | pyList (xs : List ℚ)
  | pyNum (x : ℚ)
deriving DecidableEq, Repr

/-- The error conditions the embedded code raises (all as `ValueError` in
Python); the spec names them `DomainError` kinds. `unsupportedType` carries
the offending tag because the source interpolates it into the message. -/
inductive CalcError where
  | invalidInputType
  | insufficientOperands
  | divisionByZero
  | unsupportedType (tag : String)
  | notImplemented
deriving DecidableEq, Repr

/-- The message of each raised `ValueError`, as written in the source. -/
def CalcError.message : CalcError → String
  | .invalidInputType => "Inputs must be a list of numbers."
  | .insufficientOperands => "Inputs must be a list with at least two numbers."
  | .divisionByZero => "Cannot divide by zero."
  | .unsupportedType tag => "Unsupported calculation type: " ++ tag
  | .notImplemented => "NotImplementedError"

/-! ## Two-operand primitives (`app/operations/__init__.py`) -/

/-- Embeds `add(a, b)`: returns `a + b`. -/
def add (a b : ℚ) : ℚ := a + b

/-- Embeds `subtract(a, b)`: returns `a - b`. -/
def subtract (a b : ℚ) : ℚ := a - b

/-- Embeds `multiply(a, b)`: returns `a * b`. -/
def multiply (a b : ℚ) : ℚ := a * b

/-- Embeds `divide(a, b)`: raises `ValueError("Cannot divide by zero.")`
when `b == 0`, otherwise returns `a / b`. -/
def divide (a b : ℚ) : Except CalcError ℚ :=
  if b = 0 then .error .divisionByZero else .ok (a / b)

/-! ## Calculation entity model (`app/models/calculation.py`) -/

/-- The four concrete `Calculation` subclasses, i.e. the values of the
factory's dispatch dictionary. -/
inductive CalcType where
  | addition
  | subtraction
  | multiplication
  | division
deriving DecidableEq, Repr

/-- The `polymorphic_identity` string stored in the `type` column of each
concrete subclass. -/
def CalcType.tag : CalcType → String
  | .addition => "addition"
  | .subtraction => "subtraction"
  | .multiplication => "multiplication"
  | .division => "division"

/-- A `Calculation` ORM instance.  `id`, `created_at` and `updated_at` are
column defaults applied by the storage layer, hence `Option` and `none` on a
freshly constructed instance; `result` is a nullable column never assigned
by this core. -/
structure Calculation where
  id : Option Nat := none
  user_id : Nat
  variant : CalcType
  inputs : PyObj
  result : Option ℚ := none
  created_at : Option Nat := none
  updated_at : Option Nat := none
deriving DecidableEq, Repr

/-- Embeds `Addition.get_result`: rejects non-list inputs, then lists with
fewer than two elements (the `len(self.inputs) < 2` guard, rendered as the
two short-list patterns), then returns `sum(self.inputs)` (Python `sum`
folds `+` from 0 over the whole list). -/
def Addition.get_result : PyObj → Except CalcError ℚ
  | .pyNum _ => .error .invalidInputType
  | .pyList [] => .error .insufficientOperands
  | .pyList [_] => .error .insufficientOperands
  | .pyList xs => .ok (xs.foldl (· + ·) 0)

/-- Embeds `Subtraction.get_result`: same shape checks, then
`result = inputs[0]; for value in inputs[1:]: result -= value`. -/
def Subtraction.get_result : PyObj → Except CalcError ℚ
  | .pyNum _ => .error .invalidInputType
  | .pyList [] => .error .insufficientOperands
  | .pyList [_] => .error .insufficientOperands
  | .pyList (x :: rest) => .ok (rest.foldl (· - ·) x)

/-- Embeds `Multiplication.get_result`: same shape checks, then
`result = 1; for value in inputs: result *= value` (fold over the whole
list starting from 1). -/
def Multiplication.get_result : PyObj → Except CalcError ℚ
  | .pyNum _ => .error .invalidInputType
  | .pyList [] => .error .insufficientOperands
  | .pyList [_] => .error .insufficientOperands
  | .pyList xs => .ok (xs.foldl (· * ·) 1)

/-- The loop body of `Division.get_result`:
`for value in inputs[1:]: if value == 0: raise ...; result /= value`.
The zero check happens per divisor, before the division, so the first zero
divisor halts the loop. -/
def Division.loop (acc : ℚ) : List ℚ → Except CalcError ℚ
  | [] => .ok acc
  | v :: rest =>
    if v = 0 then .error .divisionByZero else Division.loop (acc / v) rest

/-- Embeds `Division.get_result`: same shape checks, then the fold with the
per-divisor zero check. -/
def Division.get_result : PyObj → Except CalcError ℚ
  | .pyNum _ => .error .invalidInputType
  | .pyList [] => .error .insufficientOperands
  | .pyList [_] => .error .insufficientOperands
  | .pyList (x :: rest) => Division.loop x rest

/-- Polymorphic dispatch of `get_result` on the concrete subclass. -/
def getResultOf : CalcType → PyObj → Except CalcError ℚ
  | .addition => Addition.get_result
  | .subtraction => Subtraction.get_result
  | .multiplication => Multiplication.get_result
  | .division => Division.get_result

/-- Embeds `get_result` as the instance method: dispatches on the instance's
concrete class and reads `self.inputs`.  The method bodies contain no
attribute assignment, so the state-passing embedding
`Calculation.get_resultS` below returns the instance unchanged. -/
def Calculation.get_result (c : Calculation) : Except CalcError ℚ :=
  getResultOf c.variant c.inputs

/-- State-passing form of `get_result`: the pair of the returned (or
raised) value and the instance after the call.  No statement of any
variant's method body writes an attribute of `self`, so the post-state is
the instance itself. -/
def Calculation.get_resultS (c : Calculation) :
    Except CalcError ℚ × Calculation :=
  (getResultOf c.variant c.inputs, c)

/-- The `calculation_classes` dictionary lookup in
`AbstractCalculation.create` (`dict.get` over the four fixed keys). -/
def lookupCalculationClass (s : String) : Option CalcType :=
  if s = "addition" then some .addition
  else if s = "subtraction" then some .subtraction
  else if s = "multiplication" then some .multiplication
  else if s = "division" then some .division
  else none

/-- Embeds `Calculation.create`: lowercases the tag, looks it up in the dispatch
dictionary, raises `ValueError(f"Unsupported calculation type: ...")` when
absent, and otherwise constructs the subclass instance with `user_id` and
`inputs` bound and every other column left to its default. -/
def Calculation.create (calculation_type : String) (user_id : Nat)
    (inputs : PyObj) : Except CalcError Calculation :=
  match lookupCalculationClass (strLower calculation_type) with
  | none => .error (.unsupportedType calculation_type)
  | some v =>
    .ok { user_id := user_id, variant := v, inputs := inputs }

/-- Embeds `AbstractCalculation.__repr__`, as the f-string template
`f"<Calculation(type={self.type}, inputs={self.inputs})>"`, parametrised by
the rendering of `self.inputs` (Python's `str` of the stored list). -/
def Calculation.reprString (c : Calculation) (inputsRendered : String) :
    String :=
  "<Calculation(type=" ++ c.variant.tag ++ ", inputs=" ++ inputsRendered
    ++ ")>"

/-! ## Validation schemas (`app/schemas/calculation.py`) -/

/-- The four values of the `CalculationType` enum in the schema module;
the same set of tags keys the factory's dispatch dictionary. -/
def allowedTags : List String :=
  ["addition", "subtraction", "multiplication", "division"]

/-- The error conditions the schema validators raise (all as `ValueError`
inside pydantic validators in the source). -/
inductive SchemaError where
  | invalidType
  | invalidInputType
  | insufficientOperands
  | divisionByZero
deriving DecidableEq, Repr

/-- Embeds the validation pipeline of `CalculationBase`, in the order the
source runs it: `validate_type` (the tag must be a string whose lowercasing
is an allowed enum value; the lowercased form is kept),
`check_inputs_is_list` (the inputs must be a list), then the
`model_validator` `validate_inputs` (at least two elements; for the
division type, no element from index 1 onward may equal zero).  Runs
before any `Calculation` entity is constructed: it mentions no entity
operation. -/
def CalculationBase.validate (ty : String) (inputs : PyObj) :
    Except SchemaError (String × List ℚ) :=
  if allowedTags.contains (strLower ty) then
    match inputs with
    | .pyNum _ => .error .invalidInputType
    | .pyList xs =>
      if xs.length < 2 then .error .insufficientOperands
      else if strLower ty = "division" ∧ (xs.drop 1).any (· == 0) then
        .error .divisionByZero
      else .ok (strLower ty, xs)
  else .error .invalidType

/-- Embeds the validation of `CalculationUpdate`: `inputs` is optional
(`None` passes); when present, the `model_validator` requires at least two
elements.  No division-specific zero check exists at this layer. -/
def CalculationUpdate.validate (inputs : Option (List ℚ)) :
    Except SchemaError (Option (List ℚ)) :=
  match inputs with
  | none => .ok none
  | some xs =>
    if xs.length < 2 then .error .insufficientOperands else .ok (some xs)

/-- Rendering format the specification prescribes for instances, stated
from the spec's words for comparison with the source's
`Calculation.reprString`: `Calculation(type=<variant_kind>,
inputs=<inputs>)` with the tag and the inputs rendering substituted. -/
def specReprString (tag inputsRendered : String) : String :=
  "Calculation(type=" ++ tag ++ ", inputs=" ++ inputsRendered ++ ")"

/-- Left fold of the two-operand primitives over a multi-operand input
list, the reduction the spec says each variant's `get_result` must agree
with: start from the first element and combine with each subsequent
element in order; division's fallible primitive is sequenced so that its
error propagates.  The empty-list case is irrelevant to the comparison
(which assumes at least two elements) and mirrors the variants'
short-input error. -/
def primitiveFold : CalcType → List ℚ → Except CalcError ℚ
  | _, [] => .error .insufficientOperands
  | .addition, x :: rest => .ok (rest.foldl add x)
  | .subtraction, x :: rest => .ok (rest.foldl subtract x)
  | .multiplication, x :: rest => .ok (rest.foldl multiply x)
  | .division, x :: rest => rest.foldlM divide x

/-! ## Helper lemmas -/

/-- On a list with at least two elements, addition's method returns the sum. -/
theorem addition_eval (xs : List ℚ) (h : 2 ≤ xs.length) :
    Addition.get_result (.pyList xs) = .ok (xs.foldl (· + ·) 0) := by
  match xs, h with
  | x :: y :: t, _ => rfl

/-- Behaviour of the division loop: a clean run folds division, a zero
divisor raises. -/
theorem divisionLoop_spec (rest : List ℚ) : ∀ acc,
    ((0 : ℚ) ∉ rest →
      Division.loop acc rest = .ok (rest.foldl (· / ·) acc))
    ∧ ((0 : ℚ) ∈ rest →
      Division.loop acc rest = .error .divisionByZero) := by
  induction rest with
  | nil => intro acc; simp [Division.loop]
  | cons v t ih =>
    intro acc
    by_cases hv : v = 0
    · subst hv; simp [Division.loop]
    · constructor
      · intro h
        rw [List.mem_cons] at h
        push_neg at h
        simp [Division.loop, hv, (ih (acc / v)).1 h.2]
      · intro h
        rcases List.mem_cons.mp h with h0 | h0
        · exact absurd h0.symm hv
        · simp [Division.loop, hv, (ih (acc / v)).2 h0]

/-- The division loop is the monadic fold of the `divide` primitive. -/
theorem divisionLoop_eq_foldlM (rest : List ℚ) : ∀ acc,
    Division.loop acc rest = rest.foldlM divide acc := by
  induction rest with
  | nil => intro acc; rfl
  | cons v t ih =>
    intro acc
    by_cases hv : v = 0 <;>
      simp [Division.loop, List.foldlM, divide, hv, ih,
        Except.bind, Bind.bind]

/-- String append is associative. -/
theorem string_append_assoc (a b c : String) :
    a ++ b ++ c = a ++ (b ++ c) := by
  cases a with | mk da => cases b with | mk db => cases c with | mk dc =>
  show String.mk (da ++ db ++ dc) = String.mk (da ++ (db ++ dc))
  rw [List.append_assoc]

/-- C1: for a division calculation on a list of at least two numbers,
`get_result` raises `DivisionByZero` exactly when some element at index 1
or later is zero; when no divisor is zero the whole fold is returned (so
the first zero divisor halts the computation with the error and no partial
result escapes, and a zero at index 0 never triggers the error). -/
theorem division_get_result_zero_divisor (xs : List ℚ)
    (h : 2 ≤ xs.length) :
    (Division.get_result (.pyList xs) = .error .divisionByZero
      ↔ (0 : ℚ) ∈ xs.drop 1)
    ∧ ((0 : ℚ) ∉ xs.drop 1 →
      Division.get_result (.pyList xs)
        = .ok ((xs.drop 1).foldl (· / ·) xs.headI)) := by
  match xs, h with
  | x :: y :: t, _ =>
    have hs := divisionLoop_spec (y :: t) x
    have hd : (x :: y :: t).drop 1 = y :: t := rfl
    have hh : (x :: y :: t).headI = x := rfl
    rw [hd, hh]
    refine ⟨⟨fun he => ?_, fun hm => hs.2 hm⟩, fun hn => hs.1 hn⟩
    by_contra hn
    rw [show Division.get_result (.pyList (x :: y :: t))
        = Division.loop x (y :: t) from rfl, hs.1 hn] at he
    exact Except.noConfusion he

/-- Witness for C1 at the spec's example `[25, 0, 2]`. -/
theorem division_get_result_zero_divisor_witness :
    2 ≤ ([25, 0, 2] : List ℚ).length
    ∧ Division.get_result (.pyList [25, 0, 2]) = .error .divisionByZero :=
  ⟨by decide,
    (division_get_result_zero_divisor [25, 0, 2] (by decide)).1.mpr
      (by decide)⟩

/-- C2: on any list of at least two numbers, each variant's multi-operand
`get_result` coincides with left-folding the corresponding two-operand
primitive from `app/operations` over the list, division's error outcome
included. -/
theorem get_result_refines_primitive_fold (v : CalcType) (xs : List ℚ)
    (h : 2 ≤ xs.length) :
    getResultOf v (.pyList xs) = primitiveFold v xs := by
  match xs, h with
  | x :: y :: t, _ =>
    cases v with
    | addition =>
      show Except.ok ((x :: y :: t).foldl (· + ·) 0)
          = Except.ok ((y :: t).foldl (· + ·) x)
      simp
    | subtraction => rfl
    | multiplication =>
      show Except.ok ((x :: y :: t).foldl (· * ·) 1)
          = Except.ok ((y :: t).foldl (· * ·) x)
      simp
    | division => exact divisionLoop_eq_foldlM (y :: t) x

/-- Witness for C2 with the division variant on `[10, 2, 5]`. -/
theorem get_result_refines_primitive_fold_witness :
    2 ≤ ([10, 2, 5] : List ℚ).length
    ∧ getResultOf .division (.pyList [10, 2, 5])
        = primitiveFold .division [10, 2, 5] :=
  ⟨by decide, get_result_refines_primitive_fold .division [10, 2, 5]
    (by decide)⟩

/-- C5: subtraction's `get_result` is the left fold
`((inputs[0] - inputs[1]) - inputs[2]) - ...` in the given order; in
particular the instance created for `[15, 4, 2]` yields 9. -/
theorem subtraction_get_result_left_fold :
    (∀ (x y : ℚ) (t : List ℚ),
      Subtraction.get_result (.pyList (x :: y :: t))
        = .ok ((y :: t).foldl (· - ·) x))
    ∧ (∃ c, Calculation.create "subtraction" 0 (.pyList [15, 4, 2]) = .ok c
        ∧ c.get_result = .ok 9) := by
  refine ⟨fun x y t => rfl, ⟨_, rfl, ?_⟩⟩
  show Subtraction.get_result (.pyList [15, 4, 2]) = .ok 9
  simp [Subtraction.get_result]
  norm_num

/-- C3 counterexample: the factory succeeds on a one-element list and on a
non-list input; no input-shape error is raised at construction. -/
theorem create_shape_errors_counterexample :
    Calculation.create "addition" 0 (.pyList [42])
      = .ok { user_id := 0, variant := .addition, inputs := .pyList [42] }
    ∧ Calculation.create "addition" 0 (.pyNum 42)
      = .ok { user_id := 0, variant := .addition, inputs := .pyNum 42 }
    ∧ Calculation.create "addition" 0 (.pyList [42])
        ≠ .error CalcError.insufficientOperands := by
  refine ⟨by decide, by decide, by decide⟩

/-- C3 amended: the factory performs no input-shape validation; the
instances it returns raise the shape errors when `get_result` is invoked:
`[42]` raises `InsufficientOperands` and the non-list `42` raises
`InvalidInputType`. -/
theorem create_defers_shape_errors_to_get_result :
    (∃ c, Calculation.create "addition" 0 (.pyList [42]) = .ok c
      ∧ c.get_result = .error .insufficientOperands)
    ∧ (∃ c, Calculation.create "addition" 0 (.pyNum 42) = .ok c
      ∧ c.get_result = .error .invalidInputType) :=
  ⟨⟨{ user_id := 0, variant := .addition, inputs := .pyList [42] },
      by decide, by decide⟩,
   ⟨{ user_id := 0, variant := .addition, inputs := .pyNum 42 },
      by decide, by decide⟩⟩

/-- C4: the factory lowercases the tag against the fixed four-tag set;
a tag whose lowercasing is recognized behaves exactly as the lowercase
tag, and an unrecognized tag fails with `UnsupportedType` whose message
contains the offending tag. -/
theorem create_tag_normalization :
    (∀ tag u i, strLower tag ∉ allowedTags →
      Calculation.create tag u i = .error (.unsupportedType tag)
      ∧ ∃ p, (CalcError.unsupportedType tag).message = p ++ tag)
    ∧ (∀ tag u i, strLower tag ∈ allowedTags →
      Calculation.create tag u i = Calculation.create (strLower tag) u i) := by
  constructor
  · intro tag u i hmem
    simp only [allowedTags, List.mem_cons, List.not_mem_nil, or_false,
      not_or] at hmem
    obtain ⟨h1, h2, h3, h4⟩ := hmem
    refine ⟨?_, "Unsupported calculation type: ", rfl⟩
    simp [Calculation.create, lookupCalculationClass, h1, h2, h3, h4]
  · intro tag u i hmem
    simp only [allowedTags, List.mem_cons, List.not_mem_nil, or_false] at hmem
    rcases hmem with h | h | h | h <;>
      simp only [Calculation.create, h] <;> rfl

/-- Witness for C4 at the spec's examples "power" and "ADDITION". -/
theorem create_tag_normalization_witness :
    (strLower "power" ∉ allowedTags
      ∧ Calculation.create "power" 0 (.pyList [5, 2])
          = .error (.unsupportedType "power"))
    ∧ (strLower "ADDITION" ∈ allowedTags
      ∧ Calculation.create "ADDITION" 0 (.pyList [1, 2])
          = Calculation.create (strLower "ADDITION") 0 (.pyList [1, 2])) :=
  ⟨⟨by decide,
    (create_tag_normalization.1 "power" 0 (.pyList [5, 2]) (by decide)).1⟩,
   ⟨by decide,
    create_tag_normalization.2 "ADDITION" 0 (.pyList [1, 2]) (by decide)⟩⟩

/-- C6: the schema gate rejects a division request whose inputs contain a
zero at index 1 or later with `DivisionByZero`; the gate is a pure
function of the request, invoked before any entity construction. -/
theorem schema_rejects_division_zero_divisor (xs : List ℚ)
    (h2 : 2 ≤ xs.length) (hz : (0 : ℚ) ∈ xs.drop 1) :
    CalculationBase.validate "division" (.pyList xs)
      = .error .divisionByZero := by
  have hlen : ¬ xs.length < 2 := Nat.not_lt.mpr h2
  have hany : (xs.drop 1).any (· == 0) = true :=
    List.any_eq_true.mpr ⟨0, hz, by simp⟩
  simp [CalculationBase.validate, allowedTags, hlen, hany,
    show strLower "division" = "division" from by decide]
  exact List.drop_one xs ▸ hz

/-- Witness for C6 at the spec's example `[10, 0]`. -/
theorem schema_rejects_division_zero_divisor_witness :
    2 ≤ ([10, 0] : List ℚ).length ∧ (0 : ℚ) ∈ ([10, 0] : List ℚ).drop 1
    ∧ CalculationBase.validate "division" (.pyList [10, 0])
        = .error .divisionByZero :=
  ⟨by decide, by decide,
    schema_rejects_division_zero_divisor [10, 0] (by decide) (by decide)⟩

/-- C7: addition's `get_result` is invariant under permutation of the
input list. -/
theorem addition_get_result_perm_invariant (xs ys : List ℚ)
    (hp : xs.Perm ys) (h : 2 ≤ xs.length) :
    Addition.get_result (.pyList ys) = Addition.get_result (.pyList xs) := by
  have hy : 2 ≤ ys.length := hp.length_eq ▸ h
  rw [addition_eval xs h, addition_eval ys hy, hp.foldl_eq 0]

/-- Witness for C7 on the permutation `[1, 2, 3] ~ [3, 1, 2]`. -/
theorem addition_get_result_perm_invariant_witness :
    ([1, 2, 3] : List ℚ).Perm [3, 1, 2]
    ∧ 2 ≤ ([1, 2, 3] : List ℚ).length
    ∧ Addition.get_result (.pyList [3, 1, 2])
        = Addition.get_result (.pyList [1, 2, 3]) :=
  ⟨by decide, by decide,
    addition_get_result_perm_invariant [1, 2, 3] [3, 1, 2]
      (by decide) (by decide)⟩

/-- C8: the update schema accepts an omitted `inputs`; a present list with
fewer than two elements fails with `InsufficientOperands`; any present
list with at least two elements passes, zero divisors included — in
particular `[10, 0]` passes this layer. -/
theorem update_schema_validation :
    CalculationUpdate.validate none = .ok none
    ∧ (∀ xs, xs.length < 2 →
        CalculationUpdate.validate (some xs) = .error .insufficientOperands)
    ∧ (∀ xs, 2 ≤ xs.length →
        CalculationUpdate.validate (some xs) = .ok (some xs))
    ∧ CalculationUpdate.validate (some [10, 0]) = .ok (some [10, 0]) := by
  refine ⟨rfl, fun xs h => ?_, fun xs h => ?_, by decide⟩
  · simp [CalculationUpdate.validate, h]
  · simp [CalculationUpdate.validate, Nat.not_lt.mpr h]

/-- Witness for C8 at `[5]` (too short) and `[10, 0]` (zero divisor passes). -/
theorem update_schema_validation_witness :
    (([5] : List ℚ).length < 2
      ∧ CalculationUpdate.validate (some [5])
          = .error .insufficientOperands)
    ∧ (2 ≤ ([10, 0] : List ℚ).length
      ∧ CalculationUpdate.validate (some [10, 0]) = .ok (some [10, 0])) :=
  ⟨⟨by decide, update_schema_validation.2.1 [5] (by decide)⟩,
   ⟨by decide, update_schema_validation.2.2.1 [10, 0] (by decide)⟩⟩

/-- C9 counterexample: the textual representation of a concrete instance
is not the spec's `Calculation(type=..., inputs=...)` string — the source
wraps it in angle brackets. -/
theorem repr_format_counterexample :
    Calculation.reprString
        { user_id := 0, variant := .addition, inputs := .pyList [1, 2] }
        "[1, 2]"
      ≠ specReprString "addition" "[1, 2]"
    ∧ Calculation.reprString
        { user_id := 0, variant := .addition, inputs := .pyList [1, 2] }
        "[1, 2]"
      = "<Calculation(type=addition, inputs=[1, 2])>" :=
  ⟨by decide, by decide⟩

/-- C9 amended: every instance renders as the spec's
`Calculation(type=<variant_kind>, inputs=<inputs>)` template surrounded by
angle brackets, i.e. `<Calculation(type=..., inputs=...)>`. -/
theorem repr_renders_spec_template_in_angle_brackets (c : Calculation)
    (s : String) :
    c.reprString s = "<" ++ specReprString c.variant.tag s ++ ">" := by
  have h1 : ("<Calculation(type=" : String) = "<" ++ "Calculation(type=" :=
    by decide
  have h2 : (")>" : String) = ")" ++ ">" := by decide
  simp only [Calculation.reprString, specReprString, h1, h2,
    string_append_assoc]

/-- C10: `get_result` never writes the instance — the state-passing form
returns the instance unchanged — and a freshly created instance carries
`result = None` (as well as unset `id` and timestamps) until an external
collaborator assigns it. -/
theorem get_result_frame :
    (∀ c : Calculation, (Calculation.get_resultS c).2 = c)
    ∧ (∀ t u i c, Calculation.create t u i = .ok c →
        c.result = none ∧ c.id = none ∧ c.created_at = none
        ∧ c.updated_at = none ∧ c.user_id = u ∧ c.inputs = i) := by
  constructor
  · intro c; rfl
  · intro t u i c h
    unfold Calculation.create at h
    cases hl : lookupCalculationClass (strLower t) with
    | none => rw [hl] at h; exact absurd h (by simp)
    | some v =>
      rw [hl] at h
      cases h
      exact ⟨rfl, rfl, rfl, rfl, rfl, rfl⟩

/-- Witness for C10 on a freshly created addition instance. -/
theorem get_result_frame_witness :
    (Calculation.get_resultS
        { user_id := 0, variant := .addition, inputs := .pyList [1, 2] }).2
      = { user_id := 0, variant := .addition, inputs := .pyList [1, 2] }
    ∧ ({ user_id := 0, variant := .addition,
          inputs := .pyList [1, 2] } : Calculation).result = none :=
  ⟨get_result_frame.1 _,
   (get_result_frame.2 "addition" 0 (.pyList [1, 2])
      { user_id := 0, variant := .addition, inputs := .pyList [1, 2] }
      (by decide)).1⟩
